import Mathlib

/-!
Shallow embedding of the trading-simulator core of this repository.

Numeric values (prices, balances, quantities) are modelled as exact
rationals `ℚ`; timestamps as naturals.  Python dictionaries holding the
per-timeframe DataFrames are modelled as association lists, DataFrames as
lists of bars, and the decisions of the external strategy collaborators
(signal generation, strategy exit rules, stop/target callbacks) as explicit
oracle parameters of the per-tick step, exactly as the engine consumes
them.  Each definition mirrors one function of the source:

* `Engine.*`            — `app/backtesting/backtest_engine.py` (`BacktestEngine`)
* `Backtester.*`        — `src/backtester.py` (`Backtester`)
* `ModelsRM.*`          — `app/models/risk_manager.py` (`RiskManager`)
* `RiskMgmtRM.*`        — `app/risk_management/risk_manager.py` (`RiskManager`)
* `BaseStrat.*`         — `app/strategies/base_strategy.py` (`BaseStrategy`)
* `Scalping.*`          — `app/strategies/scalping_strategy.py` (`ScalpingStrategy`)
* `Swing.*`             — `app/strategies/swing_strategy.py` (`SwingStrategy`)
-/

namespace Trade

/-- Python truthiness of an optional numeric argument (`if atr_value:`):
`None` and `0` are falsy, every other number is truthy. -/
def truthyNum (a : Option ℚ) : Bool :=
  match a with
  | none => false
  | some x => decide (x ≠ 0)

/-- One OHLCV bar of a timeframe (indicator columns are irrelevant to the
claims and are carried by the strategies, not by the engine itself). -/
structure Bar where
  timestamp : ℕ
  openPrice : ℚ
  high : ℚ
  low : ℚ
  close : ℚ
  deriving DecidableEq, Repr

namespace Engine

/-- `BacktestEngine._get_current_data`, inner expression
`df[df.index <= current_time]`: the time-bounded view of one timeframe. -/
def time_view (t : ℕ) (df : List Bar) : List Bar :=
  df.filter (fun b => b.timestamp ≤ t)

/-- `BacktestEngine._get_current_data` (backtest_engine.py lines 131-141):
for every timeframe of the data dictionary, keep the bars with
`timestamp ≤ current_time`; a timeframe whose bounded view is empty is
dropped (`if not df_current.empty`). -/
def get_current_data (data_dict : List (String × List Bar)) (current_time : ℕ) :
    List (String × List Bar) :=
  data_dict.filterMap (fun p =>
    let df_current := time_view current_time p.2
    if df_current.isEmpty then none else some (p.1, df_current))

/-- The open-position record of `BacktestEngine._open_position`
(`self.open_position` dictionary; exit fields live on the `Trade` copy). -/
structure Position where
  symbol : String
  ptype : String
  entry_price : ℚ
  quantity : ℚ
  stop_loss : ℚ
  take_profit : ℚ
  strategy : String
  entry_time : ℕ
  deriving DecidableEq, Repr

/-- One record of `BacktestEngine.trade_history`: the closed copy of the
position dictionary. -/
structure TradeRec where
  symbol : String
  ptype : String
  entry_price : ℚ
  quantity : ℚ
  exit_price : ℚ
  exit_reason : String
  entry_time : ℕ
  exit_time : ℕ
  pnl : ℚ
  pnl_percent : ℚ
  deriving DecidableEq, Repr

/-- One record of `BacktestEngine.equity_curve`. -/
structure EquityPoint where
  timestamp : ℕ
  balance : ℚ
  deriving DecidableEq, Repr

/-- The mutable simulation state of `BacktestEngine`. -/
structure State where
  symbol : String
  current_balance : ℚ
  open_position : Option Position
  trade_history : List TradeRec
  equity_curve : List EquityPoint
  deriving DecidableEq, Repr

/-- `BacktestEngine._close_position` (backtest_engine.py lines 264-309).
PnL is realized into the balance; when the updated balance is `≤ 0` the
function logs "Account blown! Backtest stopped." and returns early —
before the trade is appended to `trade_history` and before
`open_position` is reset to `None`. -/
def close_position (s : State) (exit_price : ℚ) (exit_reason : String)
    (timestamp : ℕ) : State :=
  match s.open_position with
  | none => s
  | some pos =>
    let is_long := pos.ptype = "long"
    let pnl_usdt := if is_long then (exit_price - pos.entry_price) * pos.quantity
                    else (pos.entry_price - exit_price) * pos.quantity
    let pnl_pct := if is_long then (exit_price - pos.entry_price) / pos.entry_price
                   else (pos.entry_price - exit_price) / pos.entry_price
    let balance' := s.current_balance + pnl_usdt
    if balance' ≤ 0 then
      { s with current_balance := balance' }
    else
      { s with
          current_balance := balance',
          trade_history := s.trade_history ++
            [{ symbol := pos.symbol, ptype := pos.ptype,
               entry_price := pos.entry_price, quantity := pos.quantity,
               exit_price := exit_price, exit_reason := exit_reason,
               entry_time := pos.entry_time, exit_time := timestamp,
               pnl := pnl_usdt, pnl_percent := pnl_pct }],
          open_position := none }

/-- `BacktestEngine._check_exit_signals` (backtest_engine.py lines 192-239),
with the owning strategy's `should_exit_trade` verdict passed in as the
oracle pair `strat_exit`.  The source checks the strategy exit rule first,
then the stop-loss breach, then the take-profit breach. -/
def check_exit_signals (s : State) (current_price : ℚ)
    (strat_exit : Bool × String) (current_time : ℕ) : State :=
  match s.open_position with
  | none => s
  | some pos =>
    if strat_exit.1 then
      close_position s current_price strat_exit.2 current_time
    else if (pos.ptype = "long" ∧ current_price ≤ pos.stop_loss) ∨
            (¬ pos.ptype = "long" ∧ current_price ≥ pos.stop_loss) then
      close_position s current_price "Stop loss triggered" current_time
    else if (pos.ptype = "long" ∧ current_price ≥ pos.take_profit) ∨
            (¬ pos.ptype = "long" ∧ current_price ≤ pos.take_profit) then
      close_position s current_price "Take profit reached" current_time
    else s

/-- The position-sizing block of `BacktestEngine._check_entry_signals`
(backtest_engine.py lines 163-178): 1% risk per trade, risk amount over
the stop-distance fraction, a default quote size of 100 when the distance
is zero, capped at 95% of the balance, converted to base quantity. -/
def position_sizing (balance entry_price stop_loss : ℚ) : ℚ :=
  let risk_per_trade : ℚ := 1/100
  let risk_amount := balance * risk_per_trade
  let price_diff_pct := |entry_price - stop_loss| / entry_price
  let position_size_quote :=
    if price_diff_pct = 0 then (100 : ℚ) else risk_amount / price_diff_pct
  let position_size_quote := min position_size_quote (balance * (95/100))
  position_size_quote / entry_price

/-- The entry signal data the strategy selector hands to
`_check_entry_signals` (`signal_data['price']`, `signal_data['type']`). -/
structure EntrySignal where
  price : ℚ
  stype : String
  deriving DecidableEq, Repr

/-- Per-tick verdicts of the external strategy collaborators, passed to the
engine step exactly where the source calls them: entry decision and signal
data from `StrategySelector.should_enter_trade`, the stop/target callbacks
of the selected strategy (`calculate_stop_loss` / `calculate_take_profit`),
the owning strategy's exit verdict, and the close of the primary-timeframe
bar at this tick. -/
structure TickOracle where
  should_enter : Bool
  signal_data : Option EntrySignal
  strategy_name : String
  calc_stop : ℚ → Bool → ℚ
  calc_tp : ℚ → Bool → ℚ
  strat_exit : Bool × String
  price : ℚ

/-- `BacktestEngine._check_entry_signals` (backtest_engine.py lines 143-190):
on an accepted signal, compute stop/target via the owning strategy,
size the position, and open it. -/
def check_entry_signals (s : State) (o : TickOracle) (current_time : ℕ) : State :=
  if o.should_enter then
    match o.signal_data with
    | none => s
    | some sd =>
      let entry_price := sd.price
      let is_long := sd.stype = "long"
      let stop_loss := o.calc_stop entry_price is_long
      let take_profit := o.calc_tp entry_price is_long
      let quantity := position_sizing s.current_balance entry_price stop_loss
      let pos : Position :=
        { symbol := s.symbol,
          ptype := if is_long then "long" else "short",
          entry_price := entry_price, quantity := quantity,
          stop_loss := stop_loss, take_profit := take_profit,
          strategy := o.strategy_name, entry_time := current_time }
      { s with open_position := some pos }
  else s

/-- `BacktestEngine._calculate_unrealized_pnl` (backtest_engine.py lines
311-333): zero when flat, mark-to-market of the open position otherwise. -/
def unrealized_pnl (s : State) (current_price : ℚ) : ℚ :=
  match s.open_position with
  | none => 0
  | some pos =>
    if pos.ptype = "long" then (current_price - pos.entry_price) * pos.quantity
    else (pos.entry_price - current_price) * pos.quantity

/-- The entry/exit half of one iteration of the `run_backtest` loop
(backtest_engine.py lines 89-95): exit checks when a position is open,
entry checks otherwise. -/
def process_tick (s : State) (o : TickOracle) (current_time : ℕ) : State :=
  match s.open_position with
  | some _ => check_exit_signals s o.price o.strat_exit current_time
  | none => check_entry_signals s o current_time

/-- One full iteration of the `run_backtest` loop (backtest_engine.py lines
81-105): process the tick, then append one equity point holding the
realized balance plus the unrealized PnL of any open position. -/
def tick (s : State) (o : TickOracle) (current_time : ℕ) : State :=
  let s1 := process_tick s o current_time
  { s1 with equity_curve := s1.equity_curve ++
      [{ timestamp := current_time,
         balance := s1.current_balance + unrealized_pnl s1 o.price }] }

/-- The `run_backtest` iteration over the primary timeframe: fold `tick`
over the (timestamp, oracle) sequence of the run. -/
def run (s : State) (ticks : List (ℕ × TickOracle)) : State :=
  ticks.foldl (fun st p => tick st p.2 p.1) s

end Engine

namespace Backtester

/-- A position record of `Backtester._open_position` (src/backtester.py). -/
structure Position where
  direction : String
  size : ℚ
  entry_price : ℚ
  entry_time : ℕ
  stop_loss : ℚ
  take_profit : ℚ
  deriving DecidableEq, Repr

/-- A closed-trade record of `Backtester._close_position`. -/
structure TradeRec where
  entry_time : ℕ
  exit_time : ℕ
  direction : String
  entry_price : ℚ
  exit_price : ℚ
  size : ℚ
  pnl : ℚ
  pnl_percent : ℚ
  reason : String
  deriving DecidableEq, Repr

/-- The configuration the module reads from `config.config`:
`QUANTITY`, `STOP_LOSS_PERCENT`, `TAKE_PROFIT_PERCENT`. -/
structure Config where
  quantity : ℚ
  stop_loss_percent : ℚ
  take_profit_percent : ℚ
  deriving DecidableEq, Repr

/-- The mutable state of `Backtester` (`positions` holds at most one
position; the source keeps it as a list and reads `positions[0]`). -/
structure State where
  balance : ℚ
  commission : ℚ
  positions : List Position
  trades : List TradeRec
  deriving DecidableEq, Repr

/-- `Backtester._close_position` (src/backtester.py lines 190-235): PnL
with a round-trip commission `size * exit * commission * 2` subtracted,
`pnl_percent` as a commission-free percentage, append the trade, clear
the position list. -/
def close_position (s : State) (price : ℚ) (timestamp : ℕ) (reason : String) :
    State :=
  match s.positions with
  | [] => s
  | position :: _ =>
    let pnl_percent :=
      if position.direction = "long" then (price / position.entry_price - 1) * 100
      else (1 - price / position.entry_price) * 100
    let pnl0 :=
      if position.direction = "long" then position.size * (price - position.entry_price)
      else position.size * (position.entry_price - price)
    let commission := position.size * price * s.commission * 2
    let pnl := pnl0 - commission
    let trade : TradeRec :=
      { entry_time := position.entry_time, exit_time := timestamp,
        direction := position.direction, entry_price := position.entry_price,
        exit_price := price, size := position.size,
        pnl := pnl, pnl_percent := pnl_percent, reason := reason }
    { s with balance := s.balance + pnl,
             trades := s.trades ++ [trade],
             positions := [] }

/-- `Backtester._open_position` (src/backtester.py lines 154-188): fixed
`QUANTITY` size, percentage stop/target around the entry price. -/
def open_position (cfg : Config) (s : State) (signal : ℤ) (price : ℚ)
    (timestamp : ℕ) : State :=
  let direction := if signal > 0 then "long" else "short"
  let stop_loss :=
    if direction = "long" then price * (1 - cfg.stop_loss_percent / 100)
    else price * (1 + cfg.stop_loss_percent / 100)
  let take_profit :=
    if direction = "long" then price * (1 + cfg.take_profit_percent / 100)
    else price * (1 - cfg.take_profit_percent / 100)
  let position : Position :=
    { direction := direction, size := cfg.quantity, entry_price := price,
      entry_time := timestamp, stop_loss := stop_loss, take_profit := take_profit }
  { s with positions := s.positions ++ [position] }

/-- `Backtester._process_signal` (src/backtester.py lines 119-152): with an
open position, check stop-loss first, then take-profit, then the opposite
signal; afterwards open a new position when flat and the signal is
non-zero. -/
def process_signal (cfg : Config) (s : State) (price : ℚ) (timestamp : ℕ)
    (signal : ℤ) : State :=
  let s1 :=
    match s.positions with
    | [] => s
    | position :: _ =>
      if position.direction = "long" then
        if price ≤ position.stop_loss then close_position s price timestamp "stop_loss"
        else if price ≥ position.take_profit then close_position s price timestamp "take_profit"
        else if signal < 0 then close_position s price timestamp "signal"
        else s
      else
        if price ≥ position.stop_loss then close_position s price timestamp "stop_loss"
        else if price ≤ position.take_profit then close_position s price timestamp "take_profit"
        else if signal > 0 then close_position s price timestamp "signal"
        else s
  if s1.positions.isEmpty ∧ signal ≠ 0 then open_position cfg s1 signal price timestamp
  else s1

/-- The prefix view `df.iloc[:i+1]` handed to
`strategy.generate_signal(current_data)` in `Backtester.run`
(src/backtester.py lines 95-104). -/
def current_data (df : List Bar) (i : ℕ) : List Bar :=
  df.take (i + 1)

/-- One record of `Backtester.equity_curve` (src/backtester.py lines
106-111): the realized `self.balance` and an open-position flag. -/
structure EquityPoint where
  timestamp : ℕ
  balance : ℚ
  open_position : Bool
  deriving DecidableEq, Repr

/-- One iteration of the `Backtester.run` loop after signal generation
(src/backtester.py lines 103-111): process the signal for candle `i`,
then append one equity-curve record holding the realized `self.balance`
alone — no unrealized PnL of the open position is added. -/
def run_tick (cfg : Config) (s : State) (curve : List EquityPoint)
    (price : ℚ) (timestamp : ℕ) (signal : ℤ) : State × List EquityPoint :=
  let s1 := process_signal cfg s price timestamp signal
  (s1, curve ++ [{ timestamp := timestamp, balance := s1.balance,
                   open_position := !s1.positions.isEmpty }])

end Backtester

namespace ModelsRM

/-- The configured limits `app/models/risk_manager.py` imports from
`app.config.config` (`MAX_DAILY_TRADES`, `MAX_DAILY_LOSS`,
`RISK_PER_TRADE`, `MAX_POSITION_SIZE`, `MIN_POSITION_SIZE`); they are read
from the environment, so they are parameters of the embedding. -/
structure Config where
  max_daily_trades : ℕ
  max_daily_loss : ℚ
  risk_per_trade : ℚ
  max_position_size : ℚ
  min_position_size : ℚ
  deriving DecidableEq, Repr

/-- Python `round(x, 3)` (banker's rounding to three decimals), used at the
end of `ModelsRM.calculate_position_size`; half-way values round to the
even neighbour. -/
def round_half_even (x : ℚ) : ℤ :=
  if x - ⌊x⌋ < 1/2 then ⌊x⌋
  else if 1/2 < x - ⌊x⌋ then ⌊x⌋ + 1
  else if 2 ∣ ⌊x⌋ then ⌊x⌋ else ⌊x⌋ + 1

/-- Python `round(x, 3)` on an exact rational. -/
def pyRound3 (x : ℚ) : ℚ :=
  (round_half_even (x * 1000) : ℚ) / 1000

/-- `RiskManager.calculate_position_size` of `app/models/risk_manager.py`
(lines 20-65): daily circuit breakers first, then risk-proportional size
over the absolute price risk, with an explicit zero-risk veto
(`if price_risk == 0: return 0`); `_get_account_balance` is the hard-coded
10000.0 testing stub of that module. -/
def calculate_position_size (cfg : Config) (daily_trades : ℕ) (daily_pnl : ℚ)
    (entry_price stop_loss_price : ℚ) (risk_override : Option ℚ) : ℚ :=
  if cfg.max_daily_trades ≤ daily_trades then 0
  else if daily_pnl ≤ -cfg.max_daily_loss then 0
  else
    let risk := risk_override.getD cfg.risk_per_trade
    let risk_amount := (10000 : ℚ) * risk
    let price_risk := |entry_price - stop_loss_price|
    if price_risk = 0 then 0
    else
      let position_size := risk_amount / price_risk
      let position_size := min position_size cfg.max_position_size
      let position_size := max position_size cfg.min_position_size
      pyRound3 position_size

end ModelsRM

namespace RiskMgmtRM

/-- `RiskManager._round_step_size` of `app/risk_management/risk_manager.py`
(lines 79-84): `np.floor(quantity / step_size) * step_size` (the local
`precision` computation there is dead code). -/
def round_step_size (quantity step_size : ℚ) : ℚ :=
  (⌊quantity / step_size⌋ : ℚ) * step_size

/-- `RiskManager.calculate_position_size` of
`app/risk_management/risk_manager.py` (lines 26-77): on zero stop distance
it returns the default `BASE_ORDER_SIZE / entry_price` *before* the
division by the distance fraction and before any lot-size rounding;
otherwise risk amount over the distance fraction, capped at
`BASE_ORDER_SIZE`, converted to base units and rounded to the exchange
step size when one is known. -/
def calculate_position_size (risk_per_trade base_order_size : ℚ)
    (balance entry_price stop_loss_price : ℚ) (step_size : Option ℚ) : ℚ :=
  let risk_amount := balance * risk_per_trade
  let price_diff_pct := |entry_price - stop_loss_price| / entry_price
  if price_diff_pct = 0 then base_order_size / entry_price
  else
    let position_size_quote := risk_amount / price_diff_pct
    let position_size_quote := min position_size_quote base_order_size
    let position_size_base := position_size_quote / entry_price
    match step_size with
    | some s => round_step_size position_size_base s
    | none => position_size_base

end RiskMgmtRM

namespace BaseStrat

/-- `BaseStrategy.get_stop_loss_price` (app/strategies/base_strategy.py
lines 83-105): 2×ATR distance when an ATR value is truthy, otherwise a
fixed 2% distance; subtracted for a long, added for a short. -/
def get_stop_loss_price (entry_price : ℚ) (direction : String)
    (atr_value : Option ℚ) : ℚ :=
  let stop_distance :=
    if truthyNum atr_value then (atr_value.getD 0) * 2
    else entry_price * (2/100)
  if direction = "long" then entry_price - stop_distance
  else entry_price + stop_distance

/-- `BaseStrategy.get_take_profit_price` (app/strategies/base_strategy.py
lines 107-128): the stop distance (always the fixed-percentage one, since
the inner call passes no ATR) scaled by the risk-reward ratio, on the
profitable side of the entry. -/
def get_take_profit_price (entry_price : ℚ) (direction : String)
    (risk_reward_ratio : ℚ) : ℚ :=
  let stop_loss := get_stop_loss_price entry_price direction none
  if direction = "long" then
    entry_price + (entry_price - stop_loss) * risk_reward_ratio
  else
    entry_price - (stop_loss - entry_price) * risk_reward_ratio

end BaseStrat

namespace Scalping

/-- `ScalpingStrategy.calculate_stop_loss` (app/strategies/
scalping_strategy.py lines 352-357), with `self.stop_loss_pct` as the
parameter `p`. -/
def calculate_stop_loss (p : ℚ) (entry_price : ℚ) (is_long : Bool) : ℚ :=
  if is_long then entry_price * (1 - p) else entry_price * (1 + p)

/-- `ScalpingStrategy.calculate_take_profit` (lines 359-364), with
`self.profit_target` as the parameter `tgt`. -/
def calculate_take_profit (tgt : ℚ) (entry_price : ℚ) (is_long : Bool) : ℚ :=
  if is_long then entry_price * (1 + tgt) else entry_price * (1 - tgt)

/-- `ScalpingStrategy.get_stop_loss_price` (lines 338-343).  The ATR branch
returns `entry_price * (1 - stop_loss_pct)` for *both* directions (and
ignores the ATR value); the other branch calls
`calculate_stop_loss(entry_price, direction)`, passing the direction
*string* where a boolean `is_long` is expected — any non-empty string is
truthy in Python, so `"short"` also selects the long branch. -/
def get_stop_loss_price (p : ℚ) (entry_price : ℚ) (direction : String)
    (atr_value : Option ℚ) : ℚ :=
  if truthyNum atr_value then entry_price * (1 - p)
  else calculate_stop_loss p entry_price (direction ≠ "")

/-- `ScalpingStrategy.get_take_profit_price` (lines 345-350). -/
def get_take_profit_price (tgt : ℚ) (entry_price : ℚ) (direction : String) : ℚ :=
  if direction = "long" then entry_price * (1 + tgt) else entry_price * (1 - tgt)

end Scalping

namespace Swing

/-- `SwingStrategy.calculate_stop_loss` (app/strategies/swing_strategy.py
lines 271-276). -/
def calculate_stop_loss (p : ℚ) (entry_price : ℚ) (is_long : Bool) : ℚ :=
  if is_long then entry_price * (1 - p) else entry_price * (1 + p)

/-- `SwingStrategy.calculate_take_profit` (lines 278-283). -/
def calculate_take_profit (tgt : ℚ) (entry_price : ℚ) (is_long : Bool) : ℚ :=
  if is_long then entry_price * (1 + tgt) else entry_price * (1 - tgt)

end Swing

/-! Concrete fixtures used by the counterexamples, the failing-input
evaluations and the witnesses. -/

/-- A long position whose stop-loss sits just below the current price. -/
def posC2 : Engine.Position :=
  { symbol := "BTCUSDT", ptype := "long", entry_price := 100, quantity := 1,
    stop_loss := 99, take_profit := 110, strategy := "Scalping", entry_time := 3 }

/-- Engine state holding `posC2` with a healthy balance. -/
def stateC2 : Engine.State :=
  { symbol := "BTCUSDT", current_balance := 10000, open_position := some posC2,
    trade_history := [], equity_curve := [] }

/-- A large long position whose stop-loss close wipes out the account. -/
def posBust : Engine.Position :=
  { symbol := "BTCUSDT", ptype := "long", entry_price := 100, quantity := 200,
    stop_loss := 95, take_profit := 110, strategy := "Swing", entry_time := 2 }

/-- Engine state holding `posBust` with a 10000 balance: closing at 40
realizes a 12000 loss and drives the balance to -2000. -/
def stateBust : Engine.State :=
  { symbol := "BTCUSDT", current_balance := 10000, open_position := some posBust,
    trade_history := [], equity_curve := [] }

/-- A flat engine state with 1000 balance. -/
def flat1000 : Engine.State :=
  { symbol := "BTCUSDT", current_balance := 1000, open_position := none,
    trade_history := [], equity_curve := [] }

/-- Percentage stop callback (2% below entry for a long, 2% above for a
short), as the strategies' `calculate_stop_loss` produces. -/
def calcStop2pct : ℚ → Bool → ℚ :=
  fun e l => if l then e * (98/100) else e * (102/100)

/-- Percentage target callback (4% beyond entry in the trade direction). -/
def calcTp4pct : ℚ → Bool → ℚ :=
  fun e l => if l then e * (104/100) else e * (96/100)

/-- Tick oracle: accepted short signal at price 100, no exit verdict. -/
def oEnterShort : Engine.TickOracle :=
  { should_enter := true, signal_data := some { price := 100, stype := "short" },
    strategy_name := "Scalping", calc_stop := calcStop2pct, calc_tp := calcTp4pct,
    strat_exit := (false, "No exit conditions met"), price := 100 }

/-- Tick oracle: no signal, price spikes to 300 (breaching the short's
stop-loss). -/
def oCrash : Engine.TickOracle :=
  { should_enter := false, signal_data := none, strategy_name := "",
    calc_stop := calcStop2pct, calc_tp := calcTp4pct,
    strat_exit := (false, "No exit conditions met"), price := 300 }

/-- Tick oracle: no signal, price collapses to 10 (reaching the stuck
short's take-profit). -/
def oRecover : Engine.TickOracle :=
  { should_enter := false, signal_data := none, strategy_name := "",
    calc_stop := calcStop2pct, calc_tp := calcTp4pct,
    strat_exit := (false, "No exit conditions met"), price := 10 }

/-- Tick oracle: accepted long signal at price 10, no exit verdict. -/
def oEnterLong : Engine.TickOracle :=
  { should_enter := true, signal_data := some { price := 10, stype := "long" },
    strategy_name := "Scalping", calc_stop := calcStop2pct, calc_tp := calcTp4pct,
    strat_exit := (false, "No exit conditions met"), price := 10 }

/-- The bankrupt prefix of the four-tick run: enter short at 100, then the
stop-loss close at 300 realizes -1000, leaving the balance at 0. -/
def bankRun2 : Engine.State :=
  Engine.run flat1000 [(1, oEnterShort), (2, oCrash)]

/-- The full four-tick run: after the balance hits 0 at tick 2, tick 3
re-closes the stuck position at 10 (balance 450) and tick 4 opens a new
position. -/
def bankRun4 : Engine.State :=
  Engine.run flat1000 [(1, oEnterShort), (2, oCrash), (3, oRecover), (4, oEnterLong)]

/-- A long `Backtester` position of size 1 entered at 100. -/
def btPosC5 : Backtester.Position :=
  { direction := "long", size := 1, entry_price := 100, entry_time := 2,
    stop_loss := 95, take_profit := 120 }

/-- `Backtester` state holding `btPosC5` at the default commission rate
0.0004. -/
def btStateC5 : Backtester.State :=
  { balance := 1000, commission := 4/10000, positions := [btPosC5], trades := [] }

/-- The default `Backtester` configuration (`QUANTITY = 0.001`,
`STOP_LOSS_PERCENT = 2`, `TAKE_PROFIT_PERCENT = 4`). -/
def btCfg : Backtester.Config :=
  { quantity := 1/1000, stop_loss_percent := 2, take_profit_percent := 4 }

/-- Two bars with increasing timestamps, used by the no-look-ahead
witness. -/
def barA : Bar := { timestamp := 1, openPrice := 10, high := 12, low := 9, close := 11 }

/-- A later bar, strictly after `barA`. -/
def barB : Bar := { timestamp := 5, openPrice := 11, high := 15, low := 10, close := 14 }

/-- A mutated future bar: same timestamp as `barB`, different prices. -/
def barB' : Bar := { timestamp := 5, openPrice := 99, high := 99, low := 99, close := 99 }

/-! ## Theorems -/

/-- Claim C10: lot-size rounding never increases size — for quantity
`q ≥ 0` and step `s > 0`, `_round_step_size` returns `⌊q/s⌋ * s`, a
non-negative exact multiple of `s` that is at most `q`, and rounding an
already-rounded quantity returns it unchanged. -/
theorem round_step_size_floor_multiple (q s : ℚ) (hq : 0 ≤ q) (hs : 0 < s) :
    RiskMgmtRM.round_step_size q s = (⌊q / s⌋ : ℚ) * s
    ∧ (∃ k : ℤ, 0 ≤ k ∧ RiskMgmtRM.round_step_size q s = (k : ℚ) * s)
    ∧ 0 ≤ RiskMgmtRM.round_step_size q s
    ∧ RiskMgmtRM.round_step_size q s ≤ q
    ∧ RiskMgmtRM.round_step_size (RiskMgmtRM.round_step_size q s) s =
        RiskMgmtRM.round_step_size q s := by
  have hs0 : s ≠ 0 := ne_of_gt hs
  have hdiv : (0 : ℚ) ≤ q / s := div_nonneg hq (le_of_lt hs)
  have hk : (0 : ℤ) ≤ ⌊q / s⌋ := Int.floor_nonneg.mpr hdiv
  refine ⟨rfl, ⟨⌊q / s⌋, hk, rfl⟩, ?_, ?_, ?_⟩
  · have : (0 : ℚ) ≤ (⌊q / s⌋ : ℚ) := by exact_mod_cast hk
    exact mul_nonneg this (le_of_lt hs)
  · have hle : ((⌊q / s⌋ : ℚ)) ≤ q / s := Int.floor_le _
    calc ((⌊q / s⌋ : ℚ)) * s ≤ (q / s) * s := by
          exact mul_le_mul_of_nonneg_right hle (le_of_lt hs)
      _ = q := div_mul_cancel₀ q hs0
  · unfold RiskMgmtRM.round_step_size
    rw [mul_div_assoc, div_self hs0, mul_one, Int.floor_intCast]

/-- Witness for `round_step_size_floor_multiple` at `q = 7`, `s = 2`. -/
theorem round_step_size_floor_multiple_witness :
    RiskMgmtRM.round_step_size 7 2 = ((⌊(7 : ℚ) / 2⌋ : ℚ)) * 2 ∧
    RiskMgmtRM.round_step_size 7 2 ≤ 7 :=
  ⟨(round_step_size_floor_multiple 7 2 (by norm_num) (by norm_num)).1,
   (round_step_size_floor_multiple 7 2 (by norm_num) (by norm_num)).2.2.2.1⟩

/-- Claim C4: risk-proportional sizing formula of
`BacktestEngine._check_entry_signals` — with balance `B`, the engine's
risk fraction 1% and allocation cap 95%, entry `e > 0` and stop `s ≠ e`,
the quote size is `min((B×1%)/(|e−s|/e), B×95%)` and the base quantity is
that value divided by `e`; at `B = 10000`, `e = 100`, `s = 98` the risk
amount is 100, the distance fraction 0.02, the pre-clamp quote size 5000
and the quantity 50. -/
theorem risk_sizing_formula (B e s : ℚ) (he : 0 < e) (hne : e ≠ s) :
    Engine.position_sizing B e s =
      min ((B * (1/100)) / (|e - s| / e)) (B * (95/100)) / e
    ∧ (10000 : ℚ) * (1/100) = 100
    ∧ |(100 : ℚ) - 98| / 100 = 2/100
    ∧ ((10000 : ℚ) * (1/100)) / (|(100 : ℚ) - 98| / 100) = 5000
    ∧ Engine.position_sizing 10000 100 98 = 50 := by
  refine ⟨?_, by norm_num, by norm_num, by norm_num, by norm_num [Engine.position_sizing]⟩
  have habs : |e - s| ≠ 0 := abs_ne_zero.mpr (sub_ne_zero.mpr hne)
  have hd : |e - s| / e ≠ 0 := div_ne_zero habs (ne_of_gt he)
  simp only [Engine.position_sizing, if_neg hd]

/-- Witness for `risk_sizing_formula` at `B = 10000`, `e = 100`, `s = 98`. -/
theorem risk_sizing_formula_witness :
    Engine.position_sizing 10000 100 98 = 50 :=
  (risk_sizing_formula 10000 100 98 (by norm_num) (by norm_num)).2.2.2.2

/-- Counterexample to claim C3: the risk sizer of
`app/risk_management/risk_manager.py` does not veto on zero stop
distance — with `entry = stop = 100`, `BASE_ORDER_SIZE = 100` it
substitutes the default `BASE_ORDER_SIZE / entry_price = 1 ≠ 0`. -/
theorem zero_distance_counterexample :
    RiskMgmtRM.calculate_position_size (1/100) 100 10000 100 100 none = 1
    ∧ (1 : ℚ) ≠ 0 := by
  constructor
  · norm_num [RiskMgmtRM.calculate_position_size]
  · norm_num

/-- Claim C3 as amended: only `app/models/risk_manager.py` vetoes on zero
stop distance (returning 0 without dividing); the sizer of
`app/risk_management/risk_manager.py` substitutes
`BASE_ORDER_SIZE / entry_price`, and the inline sizing of
`BacktestEngine._check_entry_signals` substitutes a default quote size of
100 (still capped at 95% of balance). -/
theorem zero_distance_policies (cfg : ModelsRM.Config) (dt : ℕ) (dp : ℚ)
    (e : ℚ) (ro : Option ℚ) (rpt bos balance : ℚ) (step : Option ℚ)
    (bal2 e2 : ℚ)
    (h1 : dt < cfg.max_daily_trades) (h2 : -cfg.max_daily_loss < dp) :
    ModelsRM.calculate_position_size cfg dt dp e e ro = 0
    ∧ RiskMgmtRM.calculate_position_size rpt bos balance e2 e2 step =
        bos / e2
    ∧ Engine.position_sizing bal2 e2 e2 = min 100 (bal2 * (95/100)) / e2 := by
  refine ⟨?_, ?_, ?_⟩
  · have hn1 : ¬ cfg.max_daily_trades ≤ dt := not_le.mpr h1
    have hn2 : ¬ dp ≤ -cfg.max_daily_loss := not_le.mpr h2
    simp [ModelsRM.calculate_position_size, hn1, hn2]
  · simp [RiskMgmtRM.calculate_position_size]
  · simp [Engine.position_sizing]

/-- Witness for `zero_distance_policies` at concrete limits and prices. -/
theorem zero_distance_policies_witness :
    ModelsRM.calculate_position_size
        { max_daily_trades := 10, max_daily_loss := 100, risk_per_trade := 1/100,
          max_position_size := 1, min_position_size := 1/1000 }
        0 0 100 100 none = 0 :=
  (zero_distance_policies
    { max_daily_trades := 10, max_daily_loss := 100, risk_per_trade := 1/100,
      max_position_size := 1, min_position_size := 1/1000 }
    0 0 100 none (1/100) 100 10000 none 10000 100
    (by norm_num) (by norm_num)).1

/-- Counterexample to claim C9: `ScalpingStrategy.get_stop_loss_price` is
not direction-aware — for a short at entry 100 with the default
`stop_loss_pct = 0.002`, both the ATR branch and the fixed branch return
`100 × (1 − 0.002) = 99.8`, which is below the entry, violating
`take_profit < entry < stop_loss` for a short. -/
theorem scalping_stop_direction_counterexample :
    Scalping.get_stop_loss_price (2/1000) 100 "short" (some 1) = 499/5
    ∧ Scalping.get_stop_loss_price (2/1000) 100 "short" none = 499/5
    ∧ ¬ (100 < (499/5 : ℚ)) := by
  refine ⟨?_, ?_, by norm_num⟩
  · simp [Scalping.get_stop_loss_price, Scalping.calculate_stop_loss, truthyNum]
    norm_num
  · simp [Scalping.get_stop_loss_price, Scalping.calculate_stop_loss, truthyNum]
    norm_num

/-- Claim C9 as amended: the boolean-direction pricing functions
(`calculate_stop_loss` / `calculate_take_profit` of the scalping and swing
strategies, used by `BacktestEngine._check_entry_signals`, and
`BaseStrategy.get_stop_loss_price` / `get_take_profit_price`) are
direction-aware and satisfy `stop < entry < target` for a long and
`target < entry < stop` for a short under positive parameters; but
`ScalpingStrategy.get_stop_loss_price` is not direction-aware: for every
non-empty direction string (including "short") and any ATR argument it
returns the long stop `entry × (1 − stop_loss_pct)`. -/
theorem stop_target_ordering (e p tgt atr rr : ℚ)
    (he : 0 < e) (hp0 : 0 < p) (hp1 : p < 1) (ht0 : 0 < tgt) (ht1 : tgt < 1)
    (hatr : 0 < atr) (hrr : 0 < rr) :
    (Scalping.calculate_stop_loss p e true < e
      ∧ e < Scalping.calculate_take_profit tgt e true)
    ∧ (Scalping.calculate_take_profit tgt e false < e
      ∧ e < Scalping.calculate_stop_loss p e false)
    ∧ (Swing.calculate_stop_loss p e true < e
      ∧ e < Swing.calculate_take_profit tgt e true)
    ∧ (Swing.calculate_take_profit tgt e false < e
      ∧ e < Swing.calculate_stop_loss p e false)
    ∧ (BaseStrat.get_stop_loss_price e "long" (some atr) < e
      ∧ BaseStrat.get_stop_loss_price e "long" none < e
      ∧ e < BaseStrat.get_take_profit_price e "long" rr)
    ∧ (e < BaseStrat.get_stop_loss_price e "short" (some atr)
      ∧ e < BaseStrat.get_stop_loss_price e "short" none
      ∧ BaseStrat.get_take_profit_price e "short" rr < e)
    ∧ (∀ (d : String), d ≠ "" → ∀ (a : Option ℚ),
        Scalping.get_stop_loss_price p e d a = e * (1 - p)) := by
  have htr : truthyNum (some atr) = true := by
    simp [truthyNum]
    exact ne_of_gt hatr
  refine ⟨⟨?_, ?_⟩, ⟨?_, ?_⟩, ⟨?_, ?_⟩, ⟨?_, ?_⟩, ⟨?_, ?_, ?_⟩, ⟨?_, ?_, ?_⟩, ?_⟩
  · simp [Scalping.calculate_stop_loss]
    nlinarith
  · simp [Scalping.calculate_take_profit]
    nlinarith
  · simp [Scalping.calculate_take_profit]
    nlinarith
  · simp [Scalping.calculate_stop_loss]
    nlinarith
  · simp [Swing.calculate_stop_loss]
    nlinarith
  · simp [Swing.calculate_take_profit]
    nlinarith
  · simp [Swing.calculate_take_profit]
    nlinarith
  · simp [Swing.calculate_stop_loss]
    nlinarith
  · simp [BaseStrat.get_stop_loss_price, htr]
    nlinarith
  · simp [BaseStrat.get_stop_loss_price, truthyNum]
    nlinarith
  · simp [BaseStrat.get_take_profit_price, BaseStrat.get_stop_loss_price, truthyNum]
    nlinarith
  · simp [BaseStrat.get_stop_loss_price, htr]
    nlinarith
  · simp [BaseStrat.get_stop_loss_price, truthyNum]
    nlinarith
  · simp [BaseStrat.get_take_profit_price, BaseStrat.get_stop_loss_price, truthyNum]
    nlinarith
  · intro d hd a
    rcases a with _ | x
    · simp [Scalping.get_stop_loss_price, Scalping.calculate_stop_loss, truthyNum, hd]
    · by_cases hx : x = 0
      · simp [Scalping.get_stop_loss_price, Scalping.calculate_stop_loss, truthyNum,
          hx, hd]
      · simp [Scalping.get_stop_loss_price, Scalping.calculate_stop_loss, truthyNum,
          hx]

/-- Witness for `stop_target_ordering` at `e = 100`, `p = 0.002`,
`tgt = 0.005`, `atr = 1`, `rr = 2`. -/
theorem stop_target_ordering_witness :
    Scalping.calculate_stop_loss (2/1000) 100 true < 100
    ∧ Scalping.get_stop_loss_price (2/1000) 100 "short" none = 100 * (1 - 2/1000) :=
  ⟨(stop_target_ordering 100 (2/1000) (5/1000) 1 2 (by norm_num) (by norm_num)
      (by norm_num) (by norm_num) (by norm_num) (by norm_num) (by norm_num)).1.1,
   (stop_target_ordering 100 (2/1000) (5/1000) 1 2 (by norm_num) (by norm_num)
      (by norm_num) (by norm_num) (by norm_num) (by norm_num) (by norm_num)).2.2.2.2.2.2
      "short" (by decide) none⟩

/-- Counterexample to claim C2: in `BacktestEngine._check_exit_signals` the
owning strategy's exit verdict is evaluated *before* the stop-loss check —
on a tick where the price 98 breaches the long stop-loss 99 and the
strategy also signals an exit, the trade closes with the strategy's
reason, not "Stop loss triggered". -/
theorem exit_priority_counterexample :
    (stateC2.open_position = some posC2 ∧ posC2.ptype = "long"
      ∧ (98 : ℚ) ≤ posC2.stop_loss)
    ∧ ((Engine.check_exit_signals stateC2 98 (true, "RSI reversal") 7).trade_history.map
        Engine.TradeRec.exit_reason = ["RSI reversal"])
    ∧ "RSI reversal" ≠ "Stop loss triggered" := by
  refine ⟨⟨rfl, rfl, by norm_num [posC2]⟩, ?_, by decide⟩
  simp [Engine.check_exit_signals, Engine.close_position, stateC2, posC2]
  norm_num

/-- Claim C2 as amended: the two simulators disagree on exit priority.
`BacktestEngine._check_exit_signals` checks the owning strategy's exit
rule first, then the stop-loss breach, then the take-profit breach, so
when both a stop-loss breach and a strategy exit hold it closes with the
strategy's reason; `Backtester._process_signal` checks stop-loss first,
then take-profit, then the opposite signal, so there a stop-loss breach
always yields the "stop_loss" exit reason. -/
theorem exit_priority_amended (s : Engine.State) (pos : Engine.Position)
    (price : ℚ) (se : Bool × String) (t : ℕ)
    (hpos : s.open_position = some pos) :
    (se.1 = true →
      Engine.check_exit_signals s price se t = Engine.close_position s price se.2 t)
    ∧ (se.1 = false →
      ((pos.ptype = "long" ∧ price ≤ pos.stop_loss) ∨
       (¬ pos.ptype = "long" ∧ price ≥ pos.stop_loss)) →
      Engine.check_exit_signals s price se t =
        Engine.close_position s price "Stop loss triggered" t)
    ∧ (se.1 = false →
      ¬ ((pos.ptype = "long" ∧ price ≤ pos.stop_loss) ∨
         (¬ pos.ptype = "long" ∧ price ≥ pos.stop_loss)) →
      ((pos.ptype = "long" ∧ price ≥ pos.take_profit) ∨
       (¬ pos.ptype = "long" ∧ price ≤ pos.take_profit)) →
      Engine.check_exit_signals s price se t =
        Engine.close_position s price "Take profit reached" t)
    ∧ (∀ (bs : Backtester.State) (bp : Backtester.Position)
         (rest : List Backtester.Position) (cfg : Backtester.Config)
         (price2 : ℚ) (t2 : ℕ) (sig : ℤ),
         bs.positions = bp :: rest →
         ((bp.direction = "long" ∧ price2 ≤ bp.stop_loss) ∨
          (¬ bp.direction = "long" ∧ bp.stop_loss ≤ price2)) →
         (Backtester.process_signal cfg bs price2 t2 sig).trades =
           (Backtester.close_position bs price2 t2 "stop_loss").trades) := by
  refine ⟨?_, ?_, ?_, ?_⟩
  · intro h1
    simp [Engine.check_exit_signals, hpos, h1]
  · intro h1 h2
    simp [Engine.check_exit_signals, hpos, h1, h2]
  · intro h1 h2 h3
    simp [Engine.check_exit_signals, hpos, h1, h2, h3]
  · intro bs bp rest cfg price2 t2 sig hbs hstop
    have hclose : (Backtester.close_position bs price2 t2 "stop_loss").positions = [] := by
      simp [Backtester.close_position, hbs]
    by_cases hdir : bp.direction = "long"
    · rcases hstop with ⟨_, hle⟩ | ⟨hnl, _⟩
      · simp [Backtester.process_signal, hbs, hdir, hle, hclose]
        by_cases hsig : sig = 0
        · simp [hsig]
        · simp [hsig, Backtester.open_position]
      · exact absurd hdir hnl
    · rcases hstop with ⟨hl, _⟩ | ⟨_, hge⟩
      · exact absurd hl hdir
      · simp [Backtester.process_signal, hbs, hdir, hge, hclose]
        by_cases hsig : sig = 0
        · simp [hsig]
        · simp [hsig, Backtester.open_position]

/-- Witness for `exit_priority_amended`: with no strategy exit verdict, the
breached stop of `posC2` closes the position with the stop-loss reason. -/
theorem exit_priority_amended_witness :
    Engine.check_exit_signals stateC2 98 (false, "No exit conditions met") 7 =
      Engine.close_position stateC2 98 "Stop loss triggered" 7 :=
  (exit_priority_amended stateC2 posC2 98 (false, "No exit conditions met") 7 rfl).2.1
    rfl (Or.inl ⟨rfl, by norm_num [posC2]⟩)

/-- Counterexample to claim C5: `Backtester._close_position` subtracts a
round-trip commission from the realized pnl and reports `pnl_percent` as a
commission-free percentage — closing the size-1 long entered at 100 at
price 110 with the default commission 0.0004 records
`pnl = 10 − 2×1×110×0.0004 = 9.912 ≠ (110−100)×1` and
`pnl_percent = 10 ≠ pnl/(entry×qty)`. -/
theorem pnl_commission_counterexample :
    ((Backtester.close_position btStateC5 110 9 "take_profit").trades.map
        Backtester.TradeRec.pnl = [1239/125])
    ∧ (1239/125 : ℚ) ≠ (110 - 100) * 1
    ∧ ((Backtester.close_position btStateC5 110 9 "take_profit").trades.map
        Backtester.TradeRec.pnl_percent = [10])
    ∧ (10 : ℚ) ≠ (1239/125) / (100 * 1) := by
  refine ⟨?_, by norm_num, ?_, by norm_num⟩ <;>
    simp [Backtester.close_position, btStateC5, btPosC5] <;> norm_num

/-- Claim C5 as amended: in `BacktestEngine._close_position` the realized
pnl is `(exit−entry)×qty` for a long and `(entry−exit)×qty` for a short,
the recorded `pnl_percent` equals `pnl/(entry×qty)`, and the balance after
the close is exactly the balance before plus the realized pnl; in
`Backtester._close_position` a round-trip commission
`2 × size × exit × commission_rate` is additionally subtracted from the
pnl that reaches the balance and the ledger, and `pnl_percent` is the
commission-free percentage `(exit/entry − 1) × 100`. -/
theorem pnl_accounting (s : Engine.State) (pos : Engine.Position) (x : ℚ)
    (r : String) (t : ℕ) (hpos : s.open_position = some pos)
    (hq : pos.quantity ≠ 0) (he : pos.entry_price ≠ 0) :
    (pos.ptype = "long" →
      (Engine.close_position s x r t).current_balance =
        s.current_balance + (x - pos.entry_price) * pos.quantity)
    ∧ (¬ pos.ptype = "long" →
      (Engine.close_position s x r t).current_balance =
        s.current_balance + (pos.entry_price - x) * pos.quantity)
    ∧ (pos.ptype = "long" →
      0 < s.current_balance + (x - pos.entry_price) * pos.quantity →
      ∃ tr : Engine.TradeRec,
        (Engine.close_position s x r t).trade_history = s.trade_history ++ [tr]
        ∧ tr.pnl = (x - pos.entry_price) * pos.quantity
        ∧ tr.pnl_percent = tr.pnl / (pos.entry_price * pos.quantity))
    ∧ (¬ pos.ptype = "long" →
      0 < s.current_balance + (pos.entry_price - x) * pos.quantity →
      ∃ tr : Engine.TradeRec,
        (Engine.close_position s x r t).trade_history = s.trade_history ++ [tr]
        ∧ tr.pnl = (pos.entry_price - x) * pos.quantity
        ∧ tr.pnl_percent = tr.pnl / (pos.entry_price * pos.quantity))
    ∧ (∀ (bs : Backtester.State) (bp : Backtester.Position)
         (rest : List Backtester.Position) (price2 : ℚ) (t2 : ℕ) (r2 : String),
         bs.positions = bp :: rest → bp.direction = "long" →
         (Backtester.close_position bs price2 t2 r2).balance =
           bs.balance + (bp.size * (price2 - bp.entry_price)
             - bp.size * price2 * bs.commission * 2)) := by
  refine ⟨?_, ?_, ?_, ?_, ?_⟩
  · intro hl
    by_cases hb : s.current_balance + (x - pos.entry_price) * pos.quantity ≤ 0 <;>
      simp [Engine.close_position, hpos, hl, hb]
  · intro hl
    by_cases hb : s.current_balance + (pos.entry_price - x) * pos.quantity ≤ 0 <;>
      simp [Engine.close_position, hpos, hl, hb]
  · intro hl hb
    have hb2 : ¬ s.current_balance + (x - pos.entry_price) * pos.quantity ≤ 0 :=
      not_le.mpr hb
    refine ⟨{ symbol := pos.symbol, ptype := pos.ptype,
              entry_price := pos.entry_price, quantity := pos.quantity,
              exit_price := x, exit_reason := r, entry_time := pos.entry_time,
              exit_time := t, pnl := (x - pos.entry_price) * pos.quantity,
              pnl_percent := (x - pos.entry_price) / pos.entry_price },
            ?_, rfl, ?_⟩
    · simp [Engine.close_position, hpos, hl, hb2]
    · show (x - pos.entry_price) / pos.entry_price =
        (x - pos.entry_price) * pos.quantity / (pos.entry_price * pos.quantity)
      rw [mul_div_mul_right _ _ hq]
  · intro hl hb
    have hb2 : ¬ s.current_balance + (pos.entry_price - x) * pos.quantity ≤ 0 :=
      not_le.mpr hb
    refine ⟨{ symbol := pos.symbol, ptype := pos.ptype,
              entry_price := pos.entry_price, quantity := pos.quantity,
              exit_price := x, exit_reason := r, entry_time := pos.entry_time,
              exit_time := t, pnl := (pos.entry_price - x) * pos.quantity,
              pnl_percent := (pos.entry_price - x) / pos.entry_price },
            ?_, rfl, ?_⟩
    · simp [Engine.close_position, hpos, hl, hb2]
    · show (pos.entry_price - x) / pos.entry_price =
        (pos.entry_price - x) * pos.quantity / (pos.entry_price * pos.quantity)
      rw [mul_div_mul_right _ _ hq]
  · intro bs bp rest price2 t2 r2 hbs hdir
    simp [Backtester.close_position, hbs, hdir]

/-- Witness for `pnl_accounting`: closing the long `posC2` (entry 100,
quantity 1) at 110 adds exactly 10 to the balance. -/
theorem pnl_accounting_witness :
    (Engine.close_position stateC2 110 "Take profit reached" 7).current_balance =
      stateC2.current_balance + (110 - posC2.entry_price) * posC2.quantity :=
  (pnl_accounting stateC2 posC2 110 "Take profit reached" 7 rfl
    (by norm_num [posC2]) (by norm_num [posC2])).1 rfl

/-- Claim C6, evaluated at the failing input: closing `posBust` at price 40
realizes a −12000 loss, driving the balance to −2000 ≤ 0; on this path
`BacktestEngine._close_position` returns early — no Trade is appended and
the position is not cleared, so the simulator is not FLAT. -/
theorem close_bankrupt_keeps_position :
    (Engine.close_position stateBust 40 "Stop loss triggered" 5).current_balance = -2000
    ∧ (Engine.close_position stateBust 40 "Stop loss triggered" 5).open_position =
        some posBust
    ∧ (Engine.close_position stateBust 40 "Stop loss triggered" 5).trade_history = [] := by
  refine ⟨?_, ?_, ?_⟩ <;> norm_num [Engine.close_position, stateBust, posBust]

/-- Claim C7, evaluated at the failing input: after the short position of
the four-tick run is stop-closed at tick 2 the balance is 0 ≤ 0
(bankruptcy) with no trade recorded and the position still open; at tick 3
the same position is closed again (re-realizing PnL from the same entry),
lifting the balance to 450 > 0, and at tick 4 a new entry is opened — a
FLAT → IN_POSITION transition after bankruptcy. -/
theorem bankruptcy_not_terminal :
    bankRun2.current_balance ≤ 0
    ∧ bankRun2.open_position.isSome = true
    ∧ bankRun2.trade_history = []
    ∧ (bankRun4.open_position.map Engine.Position.entry_time) = some 4
    ∧ bankRun4.current_balance = 450 := by
  have hs : ¬ ("short" = "long") := by decide
  refine ⟨?_, ?_, ?_, ?_, ?_⟩ <;>
    norm_num [bankRun2, bankRun4, Engine.run, Engine.tick, Engine.process_tick,
      Engine.check_exit_signals, Engine.check_entry_signals, Engine.close_position,
      Engine.position_sizing, Engine.unrealized_pnl, flat1000, hs,
      oEnterShort, oCrash, oRecover, oEnterLong, calcStop2pct, calcTp4pct]

/-- Neither branch of `BacktestEngine._close_position` touches the equity
curve. -/
theorem close_position_equity (s : Engine.State) (x : ℚ) (r : String) (t : ℕ) :
    (Engine.close_position s x r t).equity_curve = s.equity_curve := by
  unfold Engine.close_position
  cases s.open_position with
  | none => rfl
  | some pos =>
    by_cases hb : s.current_balance + (if pos.ptype = "long"
        then (x - pos.entry_price) * pos.quantity
        else (pos.entry_price - x) * pos.quantity) ≤ 0 <;>
      simp [hb]

/-- The entry/exit half of a tick never touches the equity curve; only the
sampling step at the end of the loop body appends to it. -/
theorem process_tick_equity (s : Engine.State) (o : Engine.TickOracle) (t : ℕ) :
    (Engine.process_tick s o t).equity_curve = s.equity_curve := by
  unfold Engine.process_tick
  cases hp : s.open_position with
  | some pos =>
    unfold Engine.check_exit_signals
    rw [hp]
    by_cases h1 : o.strat_exit.1 <;> simp [h1, close_position_equity]
    split
    · exact close_position_equity ..
    · split
      · exact close_position_equity ..
      · rfl
  | none =>
    unfold Engine.check_entry_signals
    by_cases h1 : o.should_enter <;> simp [h1]
    cases o.signal_data <;> simp

/-- Counterexample to claim C8: the equity point appended by the
`Backtester.run` loop records the realized `self.balance` alone — on a
tick where the long position (entry 100, size 1) is marked at price 105,
the recorded balance is 1000, not the realized-plus-unrealized 1005 the
claim asserts. -/
theorem backtester_equity_counterexample :
    (Backtester.run_tick btCfg btStateC5 [] 105 3 0).2 =
      [{ timestamp := 3, balance := 1000, open_position := true }]
    ∧ btStateC5.balance + (105 - btPosC5.entry_price) * btPosC5.size = 1005
    ∧ (1000 : ℚ) ≠ 1005 := by
  refine ⟨?_, by norm_num [btStateC5, btPosC5], by norm_num⟩
  norm_num [Backtester.run_tick, Backtester.process_signal, btCfg, btStateC5, btPosC5]

/-- Claim C8 as amended: in `BacktestEngine.run_backtest` every simulated
tick appends exactly one equity point whose balance is the realized
balance plus the unrealized PnL of any open position (zero when flat),
one point per tick in tick order; the `Backtester.run` loop also appends
exactly one equity point per candle, but its recorded balance is the
realized balance of the post-processing state alone (with an
open-position flag) — no unrealized PnL is marked in. -/
theorem equity_sampling (s : Engine.State) (o : Engine.TickOracle) (t : ℕ)
    (ticks : List (ℕ × Engine.TickOracle)) :
    ((Engine.tick s o t).equity_curve =
      s.equity_curve ++
        [{ timestamp := t,
           balance := (Engine.process_tick s o t).current_balance +
             Engine.unrealized_pnl (Engine.process_tick s o t) o.price }])
    ∧ ((Engine.process_tick s o t).open_position = none →
        Engine.unrealized_pnl (Engine.process_tick s o t) o.price = 0)
    ∧ (Engine.run s ticks).equity_curve.length =
        s.equity_curve.length + ticks.length
    ∧ (Engine.run s ticks).equity_curve.map Engine.EquityPoint.timestamp =
        s.equity_curve.map Engine.EquityPoint.timestamp ++ ticks.map Prod.fst
    ∧ (∀ (cfg : Backtester.Config) (bs : Backtester.State)
         (curve : List Backtester.EquityPoint) (price2 : ℚ) (t2 : ℕ) (sig : ℤ),
         (Backtester.run_tick cfg bs curve price2 t2 sig).2 =
           curve ++
             [{ timestamp := t2,
                balance := (Backtester.process_signal cfg bs price2 t2 sig).balance,
                open_position :=
                  !(Backtester.process_signal cfg bs price2 t2 sig).positions.isEmpty }]) := by
  refine ⟨?_, ?_, ?_, ?_, ?_⟩
  · simp [Engine.tick, process_tick_equity]
  · intro h
    simp [Engine.unrealized_pnl, h]
  · induction ticks generalizing s with
    | nil => simp [Engine.run]
    | cons a tl ih =>
      have step : (Engine.tick s a.2 a.1).equity_curve.length =
          s.equity_curve.length + 1 := by
        simp [Engine.tick, process_tick_equity]
      simp only [Engine.run, List.foldl_cons] at *
      rw [ih]
      simp [step]
      omega
  · induction ticks generalizing s with
    | nil => simp [Engine.run]
    | cons a tl ih =>
      simp only [Engine.run, List.foldl_cons] at *
      rw [ih]
      simp [Engine.tick, process_tick_equity]
  · intro cfg bs curve price2 t2 sig
    rfl

/-- Witness for `equity_sampling`: on a flat state with a no-entry oracle
the unrealized PnL recorded by the sampling step is zero. -/
theorem equity_sampling_witness :
    Engine.unrealized_pnl (Engine.process_tick flat1000 oCrash 1) oCrash.price = 0 :=
  (equity_sampling flat1000 oCrash 1 []).2.1 rfl

/-- `_get_current_data` is the per-timeframe time-bounded view with empty
views dropped: it factors through
`map (fun p => (p.1, time_view t p.2))`. -/
theorem get_current_data_eq (d : List (String × List Bar)) (t : ℕ) :
    Engine.get_current_data d t =
      (d.map (fun p => (p.1, Engine.time_view t p.2))).filter
        (fun p => !p.2.isEmpty) := by
  induction d with
  | nil => rfl
  | cons a tl ih =>
    have hcons : Engine.get_current_data (a :: tl) t =
        (if (Engine.time_view t a.2).isEmpty then Engine.get_current_data tl t
         else (a.1, Engine.time_view t a.2) :: Engine.get_current_data tl t) := by
      unfold Engine.get_current_data
      rw [List.filterMap_cons]
      by_cases h : (Engine.time_view t a.2).isEmpty
      · simp [h]
      · simp [h]
    rw [hcons, List.map_cons, List.filter_cons]
    by_cases h : (Engine.time_view t a.2).isEmpty
    · rw [if_pos h, ih]
      simp [h]
    · rw [if_neg h, ih]
      simp [h]

/-- On a strictly timestamp-increasing bar list, the prefix view
`df.iloc[:i+1]` of `Backtester.run` equals the time-bounded view at the
timestamp of bar `i`. -/
theorem take_eq_time_view (df : List Bar)
    (hsort : df.Pairwise (fun a b => a.timestamp < b.timestamp)) :
    ∀ i, ∀ hi : i < df.length,
      Backtester.current_data df i =
        Engine.time_view (df.get ⟨i, hi⟩).timestamp df := by
  induction df with
  | nil => intro i hi; simp at hi
  | cons a tl ih =>
    intro i hi
    rcases List.pairwise_cons.mp hsort with ⟨ha, htl⟩
    cases i with
    | zero =>
      simp only [Backtester.current_data, Engine.time_view, List.take,
        List.get, List.filter_cons]
      have h2 : tl.filter (fun b => b.timestamp ≤ a.timestamp) = [] := by
        rw [List.filter_eq_nil_iff]
        intro b hb
        simp only [decide_eq_true_eq, not_le]
        exact ha b hb
      simp [h2]
    | succ j =>
      have hj : j < tl.length := by simpa using hi
      have hmem : tl[j] ∈ tl := List.getElem_mem hj
      have hat : a.timestamp ≤ tl[j].timestamp := le_of_lt (ha _ hmem)
      have hih := ih htl j hj
      simp only [Backtester.current_data, Engine.time_view, List.get,
        List.filter_cons, List.get_eq_getElem] at hih ⊢
      rw [List.take_succ_cons, hih]
      simp [hat]

/-- Claim C1: no-look-ahead — the data view built by
`BacktestEngine._get_current_data` at tick `t` contains, per timeframe,
exactly the bars with timestamp ≤ t (every bar in the view is ≤ t, every
view list is the time-bounded filter of its source list, and every
timeframe whose bounded view is non-empty is present); consequently every
decision function applied to the view — regime classification, signal
generation, exit evaluation — yields identical results on any two
datasets that agree on bars with timestamp ≤ t, so mutating bars strictly
after t changes nothing at t.  The prefix view `df.iloc[:i+1]` of
`Backtester.run` likewise equals the time-bounded view at the timestamp
of bar `i` for strictly increasing timestamps. -/
theorem no_look_ahead {α : Type} (f : List (String × List Bar) → α)
    (d1 d2 : List (String × List Bar)) (t : ℕ)
    (hagree : d1.map (fun p => (p.1, Engine.time_view t p.2)) =
              d2.map (fun p => (p.1, Engine.time_view t p.2))) :
    (∀ p ∈ Engine.get_current_data d1 t, ∀ b ∈ p.2, b.timestamp ≤ t)
    ∧ (∀ p ∈ Engine.get_current_data d1 t, ∃ df,
         (p.1, df) ∈ d1 ∧ p.2 = Engine.time_view t df)
    ∧ (∀ p ∈ d1, (Engine.time_view t p.2).isEmpty = false →
         (p.1, Engine.time_view t p.2) ∈ Engine.get_current_data d1 t)
    ∧ f (Engine.get_current_data d1 t) = f (Engine.get_current_data d2 t)
    ∧ (∀ (df : List Bar),
         df.Pairwise (fun a b => a.timestamp < b.timestamp) →
         ∀ i, ∀ hi : i < df.length,
           Backtester.current_data df i =
             Engine.time_view (df.get ⟨i, hi⟩).timestamp df) := by
  refine ⟨?_, ?_, ?_, ?_, ?_⟩
  · intro p hp b hb
    rw [get_current_data_eq] at hp
    rcases List.mem_filter.mp hp with ⟨hmem, _⟩
    rcases List.mem_map.mp hmem with ⟨q, hq, rfl⟩
    simp only [Engine.time_view] at hb
    exact of_decide_eq_true (List.mem_filter.mp hb).2
  · intro p hp
    rw [get_current_data_eq] at hp
    rcases List.mem_filter.mp hp with ⟨hmem, _⟩
    rcases List.mem_map.mp hmem with ⟨q, hq, rfl⟩
    exact ⟨q.2, hq, rfl⟩
  · intro p hp hne
    rw [get_current_data_eq]
    refine List.mem_filter.mpr ⟨List.mem_map.mpr ⟨p, hp, rfl⟩, ?_⟩
    simp [hne]
  · rw [get_current_data_eq, get_current_data_eq, hagree]
  · exact fun df hs i hi => take_eq_time_view df hs i hi

/-- Witness for `no_look_ahead`: two single-timeframe datasets that agree
up to tick 1 but hold different bars at timestamp 5 produce identical
views at tick 1. -/
theorem no_look_ahead_witness :
    Engine.get_current_data [("5m", [barA, barB])] 1 =
      Engine.get_current_data [("5m", [barA, barB'])] 1 :=
  (no_look_ahead id [("5m", [barA, barB])] [("5m", [barA, barB'])] 1
    (by rfl)).2.2.2.1

end Trade
